import Mathlib

/-!
Shallow embedding of the regulatory-extraction pipeline
(src/app: schemas/response.py, services/gemini_service.py, graph/nodes.py,
graph/state.py, graph/workflow.py).

External collaborators (the Firecrawl scraping agent and the Gemini model)
are modelled as oracle functions; a raised Python exception is modelled as
`Except.error msg` where `msg` is the exception's string form, so that the
source's `try/except` blocks become `match` on the oracle's result.
-/

/-- ChangeStatus enum (src/app/schemas/response.py): status of a rule after
comparison. -/
inductive ChangeStatus where
  | NEW
  | UPDATED
  | UNCHANGED
deriving DecidableEq, Repr

/-- Rule (src/app/schemas/response.py): a raw rule extracted by Firecrawl,
used internally before Gemini processing. -/
structure Rule where
  rule_number : String
  effective_date : String
  rule_text : String
  rule_text_citation : String
deriving DecidableEq, Repr

/-- ProcessedRule (src/app/schemas/response.py): an individual processed rule
extracted by Gemini, with change status and optional change reason. -/
structure ProcessedRule where
  rule_name : String
  rule_description : String
  rule_text_citation : String
  status : ChangeStatus
  change_reason : Option String
deriving DecidableEq, Repr

/-- ExtractedRule (src/app/services/gemini_service.py): a single rule parsed
out of Gemini's structured extraction output. -/
structure ExtractedRule where
  rule_name : String
  rule_description : String
deriving DecidableEq, Repr

/-- RuleExtractionResult (src/app/services/gemini_service.py): structured
output schema for rule extraction. -/
structure RuleExtractionResult where
  rules : List ExtractedRule
deriving DecidableEq, Repr

/-- RuleComparisonResult (src/app/services/gemini_service.py): structured
output schema for comparing two processed rules. `change_reason` is declared
Optional with default None in the source, so a non-equivalent verdict may
come back without a reason. -/
structure RuleComparisonResult where
  are_equivalent : Bool
  change_reason : Option String
deriving DecidableEq, Repr

/-- Oracle for one semantic-equivalence classification: the composition of
prompt building, the `generate_content` network call, the empty-response
check and `RuleComparisonResult.model_validate_json` inside the `try` block
of `GeminiService.compare_rules`. `Except.error msg` models any exception
raised there (network or parse failure), with `msg` the exception text. -/
def Classifier : Type :=
  ProcessedRule → ProcessedRule → Except String RuleComparisonResult

/-- Oracle for one extraction call on a raw rule's text: the composition of
`_build_extraction_prompt`, the `generate_content` network call, the
empty-response check and `RuleExtractionResult.model_validate_json` inside
the `try` block of `GeminiService.extract_rules_from_text`. The prompt is a
fixed template around `rule_text`, so the oracle is applied to `rule_text`
directly. -/
def Extractor : Type :=
  String → Except String RuleExtractionResult

/-- GeminiService.compare_rules (src/app/services/gemini_service.py, lines
222-277): compare an existing processed rule with a new one. On a successful
classifier call: equivalent gives (UNCHANGED, None), otherwise
(UPDATED, result.change_reason). On a raised exception the except block
returns (UPDATED, "Comparison error: " ++ str(e)); nothing propagates. -/
def compare_rules (classify : Classifier)
    (existing_rule new_rule : ProcessedRule) : ChangeStatus × Option String :=
  match classify existing_rule new_rule with
  | Except.ok result =>
      if result.are_equivalent then
        (ChangeStatus.UNCHANGED, none)
      else
        (ChangeStatus.UPDATED, result.change_reason)
  | Except.error e =>
      (ChangeStatus.UPDATED, some ("Comparison error: " ++ e))

/-- One iteration of the dict comprehension of GeminiService.compare_rule_sets
line 303: bind rule.rule_text_citation to rule, overwriting any earlier
binding for the same citation. -/
def existing_map_insert (m : String → Option ProcessedRule)
    (rule : ProcessedRule) : String → Option ProcessedRule :=
  fun c => if c = rule.rule_text_citation then some rule else m c

/-- The dict comprehension of GeminiService.compare_rule_sets line 303
building the lookup map from rule_text_citation to existing rule: a Python
dict built left to right, so a later rule with the same citation overwrites
an earlier one. Modelled as a lookup function built by the same left fold. -/
def existing_map (existing_rules : List ProcessedRule) :
    String → Option ProcessedRule :=
  existing_rules.foldl existing_map_insert (fun _ => none)

/-- Body of the per-candidate loop of GeminiService.compare_rule_sets (lines
307-336): if the candidate's citation is in the map, compare against the
matched existing rule and build the final rule with the resulting status and
reason; otherwise build it with status NEW and no reason. In both branches
the name, description and citation are copied from the candidate. -/
def reconcile_one (classify : Classifier)
    (emap : String → Option ProcessedRule)
    (new_rule : ProcessedRule) : ProcessedRule :=
  match emap new_rule.rule_text_citation with
  | some existing_rule =>
      let sc := compare_rules classify existing_rule new_rule
      { rule_name := new_rule.rule_name
        rule_description := new_rule.rule_description
        rule_text_citation := new_rule.rule_text_citation
        status := sc.fst
        change_reason := sc.snd }
  | none =>
      { rule_name := new_rule.rule_name
        rule_description := new_rule.rule_description
        rule_text_citation := new_rule.rule_text_citation
        status := ChangeStatus.NEW
        change_reason := none }

/-- GeminiService.compare_rule_sets (src/app/services/gemini_service.py,
lines 279-350): build the citation map from the existing rules, then process
each new rule in order, appending one final rule per candidate. The
sequential for-loop appending to final_rules is a map over new_rules. -/
def compare_rule_sets (classify : Classifier)
    (existing_rules new_rules : List ProcessedRule) : List ProcessedRule :=
  new_rules.map (reconcile_one classify (existing_map existing_rules))

/-- Number of iterations of the compare_rule_sets loop that take the matched
branch (citation found in the map); each such iteration awaits compare_rules,
which issues exactly one classifier call, and the unmatched branch issues
none. -/
def compare_rule_sets_classifier_calls
    (existing_rules new_rules : List ProcessedRule) : Nat :=
  new_rules.countP
    (fun n => (existing_map existing_rules n.rule_text_citation).isSome)

/-- GeminiService.extract_rules_from_text (src/app/services/gemini_service.py,
lines 86-149): call the model on the rule text; on success convert each
extracted rule to a ProcessedRule with the citation passed through, status
NEW and no change reason; any exception is re-raised wrapped as
"Rule extraction failed: " ++ str(e). -/
def extract_rules_from_text (llm : Extractor)
    (rule_text rule_text_citation : String) :
    Except String (List ProcessedRule) :=
  match llm rule_text with
  | Except.ok result =>
      Except.ok (result.rules.map (fun extracted =>
        { rule_name := extracted.rule_name
          rule_description := extracted.rule_description
          rule_text_citation := rule_text_citation
          status := ChangeStatus.NEW
          change_reason := none }))
  | Except.error e =>
      Except.error ("Rule extraction failed: " ++ e)

/-- One iteration of the batch loop of
GeminiService.extract_rules_from_scraped_data: try the per-item extraction
inside the loop's try block; on success extend the accumulator with the
extracted rules; on an exception log and continue, leaving the accumulator
unchanged. -/
def extract_batch_step (llm : Extractor)
    (all_processed_rules : List ProcessedRule) (scraped_rule : Rule) :
    List ProcessedRule :=
  match extract_rules_from_text llm
      scraped_rule.rule_text scraped_rule.rule_text_citation with
  | Except.ok extracted_rules => all_processed_rules ++ extracted_rules
  | Except.error _ => all_processed_rules

/-- GeminiService.extract_rules_from_scraped_data
(src/app/services/gemini_service.py, lines 151-189): iterate over the
scraped rules in order, starting from an empty accumulator, applying the
batch loop body to each. -/
def extract_rules_from_scraped_data (llm : Extractor)
    (scraped_rules : List Rule) : List ProcessedRule :=
  scraped_rules.foldl (extract_batch_step llm) []

/-- The contribution of a single raw rule to the batch result: its
extracted rules on success, nothing on failure. -/
def extract_item_result (llm : Extractor) (r : Rule) : List ProcessedRule :=
  match extract_rules_from_text llm r.rule_text r.rule_text_citation with
  | Except.ok extracted_rules => extracted_rules
  | Except.error _ => []

/-- USState enum (src/app/config.py): supported US states. -/
inductive USState where
  | MONTANA
deriving DecidableEq, Repr

/-- The .value attribute of the USState str-enum. -/
def USState.value : USState → String
  | USState.MONTANA => "montana"

/-- Oracle for FirecrawlService.extract_rules
(src/app/services/firecrawl_service.py): given the US state and product
type, either return the parsed raw rules together with the resolved source
URL, or raise (configuration error, network failure, or the re-raised
"Firecrawl extraction failed: ..." wrapper); `Except.error msg` models the
raised exception with text `msg`. -/
def Scraper : Type :=
  USState → String → Except String (List Rule × String)

/-- PipelineState (src/app/graph/state.py): the LangGraph state dict for the
extraction workflow. Nodes return partial updates; every channel is a plain
last-value channel, so a returned key overwrites the stored value (also when
the returned value is None). Node functions are therefore modelled as total
functions from state to state performing exactly the overwrites of the keys
they return. -/
structure PipelineState where
  state : USState
  product_type : String
  existing_rules : List ProcessedRule
  source_url : String
  scraped_rules : List Rule
  processed_rules : List ProcessedRule
  final_rules : List ProcessedRule
  error : Option String
deriving DecidableEq, Repr

/-- create_initial_state (src/app/graph/state.py): initial workflow state;
`existing_rules or []` maps both None and an empty list to []. -/
def create_initial_state (state : USState) (product_type : String)
    (existing_rules : Option (List ProcessedRule)) : PipelineState :=
  { state := state
    product_type := product_type
    existing_rules := existing_rules.getD []
    source_url := ""
    scraped_rules := []
    processed_rules := []
    final_rules := []
    error := none }

/-- Python truthiness of an Optional[str], as used by
`if state.get("error"):` — None and the empty string are falsy. -/
def truthy : Option String → Bool
  | none => false
  | some s => s != ""

/-- scrape_node (src/app/graph/nodes.py, lines 39-77): on success store the
scraped rules, the resolved source URL and error None; on an exception store
an empty rule list, an empty URL and the error string
"Scraping failed: " ++ str(e). -/
def scrape_node (firecrawl : Scraper) (st : PipelineState) : PipelineState :=
  match firecrawl st.state st.product_type with
  | Except.ok (scraped_rules, source_url) =>
      { st with scraped_rules := scraped_rules
                source_url := source_url
                error := none }
  | Except.error e =>
      { st with scraped_rules := []
                source_url := ""
                error := some ("Scraping failed: " ++ e) }

/-- extract_rules_node (src/app/graph/nodes.py, lines 80-123): if there are
no scraped rules, store an empty processed list and error None; otherwise
store the batch extraction result and error None. The batch function catches
per-item failures itself, so the node's except branch is unreachable. Note
that both returned updates set the error key to None, overwriting any error
recorded by an earlier node. -/
def extract_rules_node (llm : Extractor) (st : PipelineState) :
    PipelineState :=
  if st.scraped_rules.isEmpty then
    { st with processed_rules := [], error := none }
  else
    { st with
        processed_rules := extract_rules_from_scraped_data llm st.scraped_rules
        error := none }

/-- The fresh all-NEW copy built by the identical list comprehensions in
compare_node (lines 146-155) and format_response_node (lines 210-219) of
src/app/graph/nodes.py: a new ProcessedRule with the name, description and
citation copied and status NEW, change_reason None. -/
def mark_new (rule : ProcessedRule) : ProcessedRule :=
  { rule_name := rule.rule_name
    rule_description := rule.rule_description
    rule_text_citation := rule.rule_text_citation
    status := ChangeStatus.NEW
    change_reason := none }

/-- compare_node (src/app/graph/nodes.py, lines 126-185): with no existing
rules, mark every processed rule NEW without touching the Gemini service;
otherwise delegate to compare_rule_sets. Both branches store error None. -/
def compare_node (classify : Classifier) (st : PipelineState) :
    PipelineState :=
  if st.existing_rules.isEmpty then
    { st with final_rules := st.processed_rules.map mark_new, error := none }
  else
    { st with
        final_rules :=
          compare_rule_sets classify st.existing_rules st.processed_rules
        error := none }

/-- Classifier calls issued by compare_node: zero on the empty-existing fast
branch (taken before the Gemini service is even obtained), otherwise the
calls of the compare_rule_sets loop. -/
def compare_node_classifier_calls (st : PipelineState) : Nat :=
  if st.existing_rules.isEmpty then 0
  else compare_rule_sets_classifier_calls st.existing_rules st.processed_rules

/-- format_response_node (src/app/graph/nodes.py, lines 188-235): if no
existing rules, no final rules, but some processed rules, emit the processed
rules re-marked NEW as final; otherwise update nothing but the error key.
Both branches store error None. -/
def format_response_node (st : PipelineState) : PipelineState :=
  if st.existing_rules.isEmpty && st.final_rules.isEmpty
      && !st.processed_rules.isEmpty then
    { st with final_rules := st.processed_rules.map mark_new, error := none }
  else
    { st with error := none }

/-- should_compare (src/app/graph/nodes.py, lines 238-261): route to
"format" when a (truthy) error is recorded, to "compare" when existing rules
were supplied, and to "format" otherwise. -/
def should_compare (st : PipelineState) : String :=
  if truthy st.error then "format"
  else if !st.existing_rules.isEmpty then "compare"
  else "format"

/-- The compiled graph of create_extraction_workflow
(src/app/graph/workflow.py, lines 23-69): START -> scrape -> extract_rules,
then the conditional edge should_compare to compare or format, then
compare -> format -> END. -/
def run_pipeline (firecrawl : Scraper) (llm : Extractor)
    (classify : Classifier) (init : PipelineState) : PipelineState :=
  let s1 := scrape_node firecrawl init
  let s2 := extract_rules_node llm s1
  if should_compare s2 = "compare" then
    format_response_node (compare_node classify s2)
  else
    format_response_node s2

/-- Classifier calls issued during one pipeline run: the compare node runs
(and issues its calls) only when the conditional edge routes to "compare". -/
def run_pipeline_classifier_calls (firecrawl : Scraper) (llm : Extractor)
    (init : PipelineState) : Nat :=
  let s1 := scrape_node firecrawl init
  let s2 := extract_rules_node llm s1
  if should_compare s2 = "compare" then compare_node_classifier_calls s2
  else 0

/-- ExtractionResponse (src/app/schemas/response.py): the terminal response
of the extraction endpoint. -/
structure ExtractionResponse where
  success : Bool
  state : String
  product_type : String
  source_url : String
  total_rules_extracted : Nat
  rules : List ProcessedRule
  error : Option String
deriving DecidableEq, Repr

/-- run_extraction_workflow (src/app/graph/workflow.py, lines 72-157): run
the compiled graph on the initial state, then build the response: a truthy
final error yields the failure response with zero rules; otherwise the final
rules (falling back to the processed rules when the final list is empty and
the processed list is not) are returned with their length as the total. -/
def run_extraction_workflow (firecrawl : Scraper) (llm : Extractor)
    (classify : Classifier) (state : USState) (product_type : String)
    (existing_rules : Option (List ProcessedRule)) : ExtractionResponse :=
  let initial_state := create_initial_state state product_type existing_rules
  let final_state := run_pipeline firecrawl llm classify initial_state
  let source_url := final_state.source_url
  if truthy final_state.error then
    { success := false
      state := state.value
      product_type := product_type
      source_url := source_url
      total_rules_extracted := 0
      rules := []
      error := final_state.error }
  else
    let final_rules := final_state.final_rules
    let processed_rules := final_state.processed_rules
    let final_rules :=
      if final_rules.isEmpty && !processed_rules.isEmpty then processed_rules
      else final_rules
    { success := true
      state := state.value
      product_type := product_type
      source_url := source_url
      total_rules_extracted := final_rules.length
      rules := final_rules
      error := none }

/-- Read a ProcessedRule object from the object store at a reference: Python
attribute reads never mutate. Out-of-range references read a dummy rule;
theorems only use valid references. -/
def read_rule (store : List ProcessedRule) (ref : Nat) : ProcessedRule :=
  store.getD ref ⟨"", "", "", ChangeStatus.NEW, none⟩

/-- Store-level rendering of the dict comprehension of compare_rule_sets
line 303: the dict holds references to the existing rule objects, keyed by
citation, built left to right (later entries overwrite earlier ones). -/
def existing_map_st (store : List ProcessedRule) (existingRefs : List Nat) :
    String → Option Nat :=
  existingRefs.foldl
    (fun m ref => fun c =>
      if c = (read_rule store ref).rule_text_citation then some ref else m c)
    (fun _ => none)

/-- Store-level rendering of the per-candidate loop body of
compare_rule_sets (lines 307-336), at the granularity of Python object
semantics: reading attributes of the matched existing rule and of the
candidate leaves the store untouched, and each ProcessedRule(...)
constructor call allocates a fresh object (appended at the end of the
store); the source contains no attribute assignment, so no existing cell is
ever written. Returns the grown store and the reference to the freshly
constructed final rule. -/
def reconcile_one_st (classify : Classifier) (emap : String → Option Nat)
    (store : List ProcessedRule) (nref : Nat) : List ProcessedRule × Nat :=
  let new_rule := read_rule store nref
  match emap new_rule.rule_text_citation with
  | some pref =>
      let sc := compare_rules classify (read_rule store pref) new_rule
      (store ++ [{ rule_name := new_rule.rule_name
                   rule_description := new_rule.rule_description
                   rule_text_citation := new_rule.rule_text_citation
                   status := sc.fst
                   change_reason := sc.snd }], store.length)
  | none =>
      (store ++ [{ rule_name := new_rule.rule_name
                   rule_description := new_rule.rule_description
                   rule_text_citation := new_rule.rule_text_citation
                   status := ChangeStatus.NEW
                   change_reason := none }], store.length)

/-- One iteration of the store-level loop: run the loop body on the current
store, then append the fresh reference to the result list. -/
def compare_st_step (classify : Classifier) (emap : String → Option Nat)
    (acc : List ProcessedRule × List Nat) (nref : Nat) :
    List ProcessedRule × List Nat :=
  let step := reconcile_one_st classify emap acc.fst nref
  (step.fst, acc.snd ++ [step.snd])

/-- Store-level rendering of GeminiService.compare_rule_sets (lines
279-350): the caller passes references to the existing and new rule
objects; the loop threads the store and appends the reference of each
freshly constructed final rule to the result list. -/
def compare_rule_sets_st (classify : Classifier)
    (store : List ProcessedRule) (existingRefs newRefs : List Nat) :
    List ProcessedRule × List Nat :=
  newRefs.foldl
    (compare_st_step classify (existing_map_st store existingRefs))
    (store, [])

/-! Concrete fixtures used by closed witness and counterexample theorems:
small rule values in the shape of the scenario examples of the source's
schema docstrings, and classifier/extractor/scraper test doubles with fixed
behaviour. -/

/-- A prior processed rule with citation "a". -/
def prior_a : ProcessedRule :=
  { rule_name := "THC Content Labeling"
    rule_description := "THC limit 10mg per serving"
    rule_text_citation := "a"
    status := ChangeStatus.NEW
    change_reason := none }

/-- An older duplicate prior rule with the same citation "a". -/
def prior_a0 : ProcessedRule :=
  { rule_name := "THC Content Labeling (old)"
    rule_description := "THC limit 5mg per serving"
    rule_text_citation := "a"
    status := ChangeStatus.NEW
    change_reason := none }

/-- A freshly extracted candidate rule with citation "a". -/
def cand_a : ProcessedRule :=
  { rule_name := "THC Content Labeling"
    rule_description := "THC limit 15mg per serving"
    rule_text_citation := "a"
    status := ChangeStatus.NEW
    change_reason := none }

/-- A freshly extracted candidate rule with citation "b", matching no prior
rule. -/
def cand_b : ProcessedRule :=
  { rule_name := "Warning Statement Requirement"
    rule_description := "Packages must carry the state warning text"
    rule_text_citation := "b"
    status := ChangeStatus.NEW
    change_reason := none }

/-- Classifier double that always reports equivalence. -/
def classify_eqv : Classifier :=
  fun _ _ => Except.ok { are_equivalent := true, change_reason := none }

/-- Classifier double that always reports a substantive change with a
reason. -/
def classify_diff : Classifier :=
  fun _ _ => Except.ok
    { are_equivalent := false
      change_reason := some "THC limit increased from 10mg to 15mg" }

/-- Classifier double that always reports non-equivalence without giving a
reason (the RuleComparisonResult schema declares change_reason Optional with
default None, so this is a well-typed model response). -/
def classify_no_reason : Classifier :=
  fun _ _ => Except.ok { are_equivalent := false, change_reason := none }

/-- Classifier double whose call always raises. -/
def classify_fail : Classifier :=
  fun _ _ => Except.error "network unreachable"

/-- Scraper double whose call always raises. -/
def firecrawl_down : Scraper :=
  fun _ _ => Except.error "network failure"

/-- Extractor double that is never reached on the paths under test. -/
def llm_idle : Extractor :=
  fun _ => Except.error "unused"

/-- Classifier double that is never reached on the paths under test. -/
def classify_idle : Classifier :=
  fun _ _ => Except.error "unused"

/-- A raw scraped rule whose text extracts successfully. -/
def raw_rule (k : String) : Rule :=
  { rule_number := k
    effective_date := "2023-01-01"
    rule_text := "text " ++ k
    rule_text_citation := "cit " ++ k }

/-- Extractor double that fails exactly on the text of raw rule "2" and
returns one extracted rule for every other text. -/
def llm_fail_on_2 : Extractor :=
  fun t =>
    if t = "text 2" then Except.error "parse failure"
    else Except.ok { rules := [{ rule_name := "rule for " ++ t
                                 rule_description := "desc for " ++ t }] }

/-- The rule the engine emits for cand_a against prior_a under
classify_diff. -/
def updated_a : ProcessedRule :=
  { rule_name := "THC Content Labeling"
    rule_description := "THC limit 15mg per serving"
    rule_text_citation := "a"
    status := ChangeStatus.UPDATED
    change_reason := some "THC limit increased from 10mg to 15mg" }

/-- An initial pipeline state with no existing rules. -/
def st_empty : PipelineState :=
  create_initial_state USState.MONTANA "flower" none

/-! Helper lemmas. -/

/-- Both branches of the loop body copy name, description and citation from
the candidate. -/
theorem reconcile_one_fields (classify : Classifier)
    (emap : String → Option ProcessedRule) (n : ProcessedRule) :
    (reconcile_one classify emap n).rule_name = n.rule_name
    ∧ (reconcile_one classify emap n).rule_description = n.rule_description
    ∧ (reconcile_one classify emap n).rule_text_citation
        = n.rule_text_citation := by
  unfold reconcile_one
  cases emap n.rule_text_citation <;> exact ⟨rfl, rfl, rfl⟩

/-- The output of compare_rule_sets at index i is the processed form of the
candidate at index i. -/
theorem compare_rule_sets_getElem (classify : Classifier)
    (P N : List ProcessedRule) (i : Nat) (n : ProcessedRule)
    (hn : N[i]? = some n) :
    (compare_rule_sets classify P N)[i]?
      = some (reconcile_one classify (existing_map P) n) := by
  unfold compare_rule_sets
  rw [List.getElem?_map, hn]
  rfl

/-- Folding dict insertions over rules none of which carry citation c leaves
the binding of c unchanged. -/
theorem foldl_insert_skip (l : List ProcessedRule)
    (m : String → Option ProcessedRule) (c : String)
    (h : ∀ r ∈ l, r.rule_text_citation ≠ c) :
    (l.foldl existing_map_insert m) c = m c := by
  induction l generalizing m with
  | nil => rfl
  | cons r l ih =>
      rw [List.foldl_cons,
        ih (existing_map_insert m r)
          (fun x hx => h x (List.mem_cons_of_mem _ hx))]
      have hne : c ≠ r.rule_text_citation := by
        intro hc
        exact h r (List.mem_cons_self r l) hc.symm
      simp [existing_map_insert, hne]

/-- When p is the last rule of the existing set carrying citation c, the
dict binds c to p. -/
theorem existing_map_append_last (P1 P2 : List ProcessedRule)
    (p : ProcessedRule) (c : String)
    (hpc : p.rule_text_citation = c)
    (hP2 : ∀ r ∈ P2, r.rule_text_citation ≠ c) :
    existing_map (P1 ++ p :: P2) c = some p := by
  unfold existing_map
  rw [List.foldl_append, List.foldl_cons, foldl_insert_skip P2 _ c hP2]
  simp [existing_map_insert, hpc]

/-- Unfolding the batch-extraction fold: the result is the accumulator
followed by, for each raw rule in order, its successful extractions (failed
items contributing the empty list). -/
theorem extract_foldl_append (llm : Extractor) (l : List Rule)
    (acc : List ProcessedRule) :
    l.foldl (extract_batch_step llm) acc
      = acc ++ (l.map (extract_item_result llm)).flatten := by
  induction l generalizing acc with
  | nil => simp
  | cons r l ih =>
      rw [List.foldl_cons, ih, List.map_cons, List.flatten_cons]
      unfold extract_batch_step extract_item_result
      cases extract_rules_from_text llm r.rule_text r.rule_text_citation with
      | ok ex => simp
      | error e => simp

/-- scrape_node leaves the input fields and the downstream result fields of
the state unchanged. -/
theorem scrape_node_frame (firecrawl : Scraper) (st : PipelineState) :
    (scrape_node firecrawl st).existing_rules = st.existing_rules
    ∧ (scrape_node firecrawl st).processed_rules = st.processed_rules
    ∧ (scrape_node firecrawl st).final_rules = st.final_rules := by
  unfold scrape_node
  cases firecrawl st.state st.product_type with
  | ok v => exact ⟨rfl, rfl, rfl⟩
  | error e => exact ⟨rfl, rfl, rfl⟩

/-- extract_rules_node leaves the existing rules and the final rules
unchanged. -/
theorem extract_node_frame (llm : Extractor) (st : PipelineState) :
    (extract_rules_node llm st).existing_rules = st.existing_rules
    ∧ (extract_rules_node llm st).final_rules = st.final_rules := by
  unfold extract_rules_node
  by_cases h : st.scraped_rules.isEmpty <;> simp [h]

/-- The store-level loop only ever appends freshly allocated cells: starting
from store s, it ends in s extended by the allocations, and every returned
reference points past the original store. -/
theorem compare_st_fold_spec (classify : Classifier)
    (emap : String → Option Nat) (nRefs : List Nat) :
    ∀ (s : List ProcessedRule) (acc : List Nat),
      ∃ extra newRefs,
        nRefs.foldl (compare_st_step classify emap) (s, acc)
            = (s ++ extra, acc ++ newRefs)
        ∧ ∀ r ∈ newRefs, s.length ≤ r := by
  induction nRefs with
  | nil =>
      intro s acc
      exact ⟨[], [], by simp, by simp⟩
  | cons n ns ih =>
      intro s acc
      have hstep : ∃ x, reconcile_one_st classify emap s n
          = (s ++ [x], s.length) := by
        simp only [reconcile_one_st]
        cases emap (read_rule s n).rule_text_citation with
        | some pref => exact ⟨_, rfl⟩
        | none => exact ⟨_, rfl⟩
      obtain ⟨x, hx⟩ := hstep
      have hone : compare_st_step classify emap (s, acc) n
          = (s ++ [x], acc ++ [s.length]) := by
        simp [compare_st_step, hx]
      obtain ⟨extra, newRefs, heq, hge⟩ := ih (s ++ [x]) (acc ++ [s.length])
      refine ⟨[x] ++ extra, [s.length] ++ newRefs, ?_, ?_⟩
      · rw [List.foldl_cons, hone, heq]
        simp
      · intro r hr
        rcases List.mem_append.mp hr with h1 | h2
        · rw [List.mem_singleton.mp h1]
        · have := hge r h2
          simp only [List.length_append, List.length_cons] at this
          omega

/-! Claim theorems. -/

/-- C2: for every prior set P and candidate set N, compare_rule_sets emits
exactly one rule per candidate, in candidate order: the output has the same
length as N and the output at every index carries the citation, name and
description of the candidate at that index. -/
theorem compare_rule_sets_length_and_fields (classify : Classifier)
    (P N : List ProcessedRule) :
    (compare_rule_sets classify P N).length = N.length
    ∧ ∀ i : Nat,
        ((compare_rule_sets classify P N)[i]?).map
            ProcessedRule.rule_text_citation
          = (N[i]?).map ProcessedRule.rule_text_citation
        ∧ ((compare_rule_sets classify P N)[i]?).map ProcessedRule.rule_name
            = (N[i]?).map ProcessedRule.rule_name
        ∧ ((compare_rule_sets classify P N)[i]?).map
              ProcessedRule.rule_description
            = (N[i]?).map ProcessedRule.rule_description := by
  constructor
  · simp [compare_rule_sets]
  · intro i
    unfold compare_rule_sets
    rw [List.getElem?_map]
    cases N[i]? with
    | none => exact ⟨rfl, rfl, rfl⟩
    | some n =>
        obtain ⟨h1, h2, h3⟩ := reconcile_one_fields classify (existing_map P) n
        simp [h1, h2, h3]

/-- C3: per-candidate classification in compare_rule_sets: an unmatched
citation yields status NEW with no reason regardless of the descriptions, a
matched pair classified equivalent yields UNCHANGED with no reason, and a
matched pair classified non-equivalent with reason X yields UPDATED with
change reason X. -/
theorem reconcile_status_cases (classify : Classifier)
    (P N : List ProcessedRule) (i : Nat) (n : ProcessedRule)
    (hn : N[i]? = some n) :
    (existing_map P n.rule_text_citation = none →
        (compare_rule_sets classify P N)[i]?
          = some { rule_name := n.rule_name
                   rule_description := n.rule_description
                   rule_text_citation := n.rule_text_citation
                   status := ChangeStatus.NEW
                   change_reason := none })
    ∧ ∀ p res, existing_map P n.rule_text_citation = some p →
        classify p n = Except.ok res →
        ((res.are_equivalent = true →
            (compare_rule_sets classify P N)[i]?
              = some { rule_name := n.rule_name
                       rule_description := n.rule_description
                       rule_text_citation := n.rule_text_citation
                       status := ChangeStatus.UNCHANGED
                       change_reason := none })
          ∧ ∀ x, res.are_equivalent = false → res.change_reason = some x →
              (compare_rule_sets classify P N)[i]?
                = some { rule_name := n.rule_name
                         rule_description := n.rule_description
                         rule_text_citation := n.rule_text_citation
                         status := ChangeStatus.UPDATED
                         change_reason := some x }) := by
  have hout := compare_rule_sets_getElem classify P N i n hn
  refine ⟨fun hnone => ?_,
    fun p res hsome hcls => ⟨fun heqv => ?_, fun x hneq hreason => ?_⟩⟩
  · rw [hout]
    simp [reconcile_one, hnone]
  · rw [hout]
    simp [reconcile_one, hsome, compare_rules, hcls, heqv]
  · rw [hout]
    simp [reconcile_one, hsome, compare_rules, hcls, hneq, hreason]

/-- Witness for the C3 theorem: a matched pair under a non-equivalent
verdict with an explicit reason. -/
theorem reconcile_status_cases_witness :
    (compare_rule_sets classify_diff [prior_a] [cand_a])[0]?
      = some { rule_name := cand_a.rule_name
               rule_description := cand_a.rule_description
               rule_text_citation := cand_a.rule_text_citation
               status := ChangeStatus.UPDATED
               change_reason :=
                 some "THC limit increased from 10mg to 15mg" } :=
  ((reconcile_status_cases classify_diff [prior_a] [cand_a] 0 cand_a rfl).2
      prior_a
      { are_equivalent := false
        change_reason := some "THC limit increased from 10mg to 15mg" }
      (by decide) rfl).2
    "THC limit increased from 10mg to 15mg" rfl rfl

/-- C5: in compare_rule_sets, when the classifier call of a matched pair
raises, the candidate is not dropped: the output at the candidate's index is
still present, has status UPDATED and a non-null change reason describing
the classification failure, and compare_rules returns this value rather
than letting the error propagate. -/
theorem classifier_failure_conservative (classify : Classifier)
    (P N : List ProcessedRule) (i : Nat) (n p : ProcessedRule) (msg : String)
    (hn : N[i]? = some n)
    (hp : existing_map P n.rule_text_citation = some p)
    (hfail : classify p n = Except.error msg) :
    (compare_rule_sets classify P N)[i]?
      = some { rule_name := n.rule_name
               rule_description := n.rule_description
               rule_text_citation := n.rule_text_citation
               status := ChangeStatus.UPDATED
               change_reason := some ("Comparison error: " ++ msg) } := by
  rw [compare_rule_sets_getElem classify P N i n hn]
  simp [reconcile_one, hp, compare_rules, hfail]

/-- Witness for the C5 theorem: a matched pair whose classifier call
raises. -/
theorem classifier_failure_conservative_witness :
    (compare_rule_sets classify_fail [prior_a] [cand_a])[0]?
      = some { rule_name := cand_a.rule_name
               rule_description := cand_a.rule_description
               rule_text_citation := cand_a.rule_text_citation
               status := ChangeStatus.UPDATED
               change_reason :=
                 some ("Comparison error: " ++ "network unreachable") } :=
  classifier_failure_conservative classify_fail [prior_a] [cand_a] 0 cand_a
    prior_a "network unreachable" rfl (by decide) rfl

/-- C8: duplicate citations in the prior set resolve last-write-wins: when
q appears earlier in the prior sequence with citation c and p is the last
prior rule carrying c, the citation map binds c to p, and a matched
candidate with citation c is processed by comparison against p. -/
theorem duplicate_citation_last_write_wins (classify : Classifier)
    (P1 P2 : List ProcessedRule) (p q n : ProcessedRule) (c : String)
    (hq : q ∈ P1) (hqc : q.rule_text_citation = c)
    (hpc : p.rule_text_citation = c)
    (hP2 : ∀ r ∈ P2, r.rule_text_citation ≠ c)
    (hnc : n.rule_text_citation = c) :
    existing_map (P1 ++ p :: P2) c = some p
    ∧ reconcile_one classify (existing_map (P1 ++ p :: P2)) n
        = { rule_name := n.rule_name
            rule_description := n.rule_description
            rule_text_citation := n.rule_text_citation
            status := (compare_rules classify p n).fst
            change_reason := (compare_rules classify p n).snd } := by
  have hmap := existing_map_append_last P1 P2 p c hpc hP2
  refine ⟨hmap, ?_⟩
  simp [reconcile_one, hnc, hmap]

/-- Witness for the C8 theorem: two prior rules with citation "a"; the map
binds "a" to the later one. -/
theorem duplicate_citation_last_write_wins_witness :
    existing_map ([prior_a0] ++ prior_a :: []) "a" = some prior_a
    ∧ reconcile_one classify_eqv (existing_map ([prior_a0] ++ prior_a :: []))
          cand_a
        = { rule_name := cand_a.rule_name
            rule_description := cand_a.rule_description
            rule_text_citation := cand_a.rule_text_citation
            status := (compare_rules classify_eqv prior_a cand_a).fst
            change_reason := (compare_rules classify_eqv prior_a cand_a).snd } :=
  duplicate_citation_last_write_wins classify_eqv [prior_a0] [] prior_a
    prior_a0 cand_a "a" (List.mem_singleton.mpr rfl) rfl rfl
    (fun r hr => absurd hr (List.not_mem_nil r)) rfl

/-- C7 counterexample: with a matched prior/candidate pair and a classifier
verdict equivalent=false carrying no reason (the RuleComparisonResult schema
makes the reason Optional with default None), the engine emits a rule with
status UPDATED and change_reason None — so a rule with status UPDATED does
not always carry a non-null change reason, refuting the claim as stated. -/
theorem change_reason_invariant_cex :
    (compare_rule_sets classify_no_reason [prior_a] [cand_a]).map
        (fun r => (r.status, r.change_reason))
      = [(ChangeStatus.UPDATED, (none : Option String))] := by
  decide

/-- C7 (amended): every rule emitted by compare_rule_sets satisfies: a
non-null change reason occurs only with status UPDATED, unconditionally;
and, provided every successful classifier verdict reporting
equivalent=false carries a reason (classification failures always supply
one themselves), every UPDATED rule carries a non-null change reason. -/
theorem change_reason_invariant (classify : Classifier)
    (P N : List ProcessedRule)
    (hwf : ∀ p n res, classify p n = Except.ok res →
        res.are_equivalent = false → res.change_reason ≠ none) :
    ∀ r ∈ compare_rule_sets classify P N,
      (r.change_reason ≠ none → r.status = ChangeStatus.UPDATED)
      ∧ (r.status = ChangeStatus.UPDATED → r.change_reason ≠ none) := by
  intro r hr
  rw [compare_rule_sets, List.mem_map] at hr
  obtain ⟨n, hn, rfl⟩ := hr
  unfold reconcile_one
  cases hmap : existing_map P n.rule_text_citation with
  | none => simp
  | some p =>
      unfold compare_rules
      cases hcls : classify p n with
      | error e => simp [hcls]
      | ok res =>
          by_cases heq : res.are_equivalent = true
          · simp [hcls, heq]
          · have heqf : res.are_equivalent = false := by
              simpa using heq
            have hres := hwf p n res hcls heqf
            simp [hcls, heqf, hres]

/-- Witness for the amended C7 theorem at concrete inputs. -/
theorem change_reason_invariant_witness :
    (updated_a.change_reason ≠ none →
        updated_a.status = ChangeStatus.UPDATED)
    ∧ (updated_a.status = ChangeStatus.UPDATED →
        updated_a.change_reason ≠ none) :=
  change_reason_invariant classify_diff [prior_a] [cand_a]
    (fun p n res hres hneq => by
      have h : ({ are_equivalent := false
                  change_reason :=
                    some "THC limit increased from 10mg to 15mg" } :
          RuleComparisonResult) = res := by
        injection hres
      rw [← h]
      simp)
    updated_a (by decide)

/-- C9: the reconciliation engine never mutates the caller-supplied prior
rules. At the granularity of Python object semantics (rule objects live in
a store; attribute reads do not write; every ProcessedRule(...) constructor
call allocates a fresh cell), running compare_rule_sets leaves every
pre-existing store cell unchanged — in particular every prior rule reads
back identically — and every output reference points to a freshly
allocated cell, never to a prior rule object. -/
theorem prior_rules_not_mutated (classify : Classifier)
    (store : List ProcessedRule) (existingRefs newRefs : List Nat) :
    (compare_rule_sets_st classify store existingRefs newRefs).fst.take
        store.length = store
    ∧ (∀ ref ∈ existingRefs, ref < store.length →
        read_rule (compare_rule_sets_st classify store existingRefs newRefs).fst
            ref
          = read_rule store ref)
    ∧ ∀ outref ∈ (compare_rule_sets_st classify store existingRefs newRefs).snd,
        store.length ≤ outref := by
  obtain ⟨extra, nrefs, heq, hge⟩ :=
    compare_st_fold_spec classify (existing_map_st store existingRefs)
      newRefs store []
  have h1 : compare_rule_sets_st classify store existingRefs newRefs
      = (store ++ extra, nrefs) := by
    unfold compare_rule_sets_st
    rw [heq]
    simp
  rw [h1]
  refine ⟨List.take_left store extra, ?_, ?_⟩
  · intro ref _ href
    unfold read_rule
    rw [List.getD_append store extra _ ref href]
  · intro r hr
    exact hge r hr

/-- Witness for the C9 theorem: one prior rule in the store, compared
against itself. -/
theorem prior_rules_not_mutated_witness :
    (compare_rule_sets_st classify_eqv [prior_a] [0] [0]).fst.take
        [prior_a].length = [prior_a]
    ∧ read_rule (compare_rule_sets_st classify_eqv [prior_a] [0] [0]).fst 0
        = read_rule [prior_a] 0
    ∧ [prior_a].length ≤ 1 := by
  obtain ⟨h1, h2, h3⟩ :=
    prior_rules_not_mutated classify_eqv [prior_a] [0] [0]
  refine ⟨h1, h2 0 (List.mem_singleton.mpr rfl) (by decide), h3 1 ?_⟩
  decide

/-- C6: batch extraction tolerates per-item failure: the batch result is
exactly the concatenation, in input order, of each raw rule's successful
extraction (a failed item contributes nothing, and processing continues
past it), and the extract stage records no error — per-item failures are
swallowed inside the batch loop, never surfacing as a stage error. -/
theorem batch_extraction_partial_failure (llm : Extractor)
    (scraped_rules : List Rule) :
    extract_rules_from_scraped_data llm scraped_rules
      = (scraped_rules.map (extract_item_result llm)).flatten
    ∧ ∀ st : PipelineState, (extract_rules_node llm st).error = none := by
  constructor
  · unfold extract_rules_from_scraped_data
    rw [extract_foldl_append]
    simp
  · intro st
    unfold extract_rules_node
    by_cases h : st.scraped_rules.isEmpty <;> simp [h]

/-- C10: every ExtractionResponse built by run_extraction_workflow has
total_rules_extracted equal to the length of its rules list: the failure
branch sets both to zero and empty, and the success branch computes the
total as the length of the very list it returns. -/
theorem total_rule_count_consistent (firecrawl : Scraper) (llm : Extractor)
    (classify : Classifier) (us : USState) (product_type : String)
    (existing_rules : Option (List ProcessedRule)) :
    (run_extraction_workflow firecrawl llm classify us product_type
        existing_rules).total_rules_extracted
      = (run_extraction_workflow firecrawl llm classify us product_type
          existing_rules).rules.length := by
  unfold run_extraction_workflow
  by_cases h : truthy (run_pipeline firecrawl llm classify
      (create_initial_state us product_type existing_rules)).error <;>
    simp [h]

/-- C1 (evaluation of the failing input): when the scrape stage fails,
scrape_node records the scraping error in the state, but extract_rules_node
(which runs unconditionally next) returns an update whose error key is
None, overwriting and erasing the recorded error; the workflow's terminal
response therefore reports success=true with an empty rule list and no
error, instead of the structured failure (success=false, error populated)
that the claim requires. -/
theorem scrape_error_wiped_by_extract_node :
    (scrape_node firecrawl_down
        (create_initial_state USState.MONTANA "flower" none)).error
      = some ("Scraping failed: " ++ "network failure")
    ∧ (extract_rules_node llm_idle (scrape_node firecrawl_down
        (create_initial_state USState.MONTANA "flower" none))).error = none
    ∧ run_extraction_workflow firecrawl_down llm_idle classify_idle
        USState.MONTANA "flower" none
      = { success := true
          state := "montana"
          product_type := "flower"
          source_url := ""
          total_rules_extracted := 0
          rules := []
          error := none } := by
  refine ⟨rfl, rfl, rfl⟩

/-- C4: empty-prior fast path. With no existing rules: the conditional edge
routes an error-free state to "format", bypassing the compare node; the
compare node itself takes its classifier-free fast branch, emitting only
status NEW rules with no reason; zero classifier calls are issued, both in
the compare node and across the whole pipeline run; and every rule of the
terminal response has status NEW with change reason None. -/
theorem empty_prior_fast_path (firecrawl : Scraper) (llm : Extractor)
    (classify : Classifier) (st : PipelineState)
    (hemp : st.existing_rules = [])
    (us : USState) (product_type : String)
    (exArg : Option (List ProcessedRule)) (hex : exArg.getD [] = []) :
    (st.error = none → should_compare st = "format")
    ∧ (∀ r ∈ (compare_node classify st).final_rules,
        r.status = ChangeStatus.NEW ∧ r.change_reason = none)
    ∧ compare_node_classifier_calls st = 0
    ∧ run_pipeline_classifier_calls firecrawl llm
        (create_initial_state us product_type exArg) = 0
    ∧ ∀ r ∈ (run_extraction_workflow firecrawl llm classify us product_type
          exArg).rules,
        r.status = ChangeStatus.NEW ∧ r.change_reason = none := by
  have h2 : (extract_rules_node llm (scrape_node firecrawl
      (create_initial_state us product_type exArg))).existing_rules = [] := by
    rw [(extract_node_frame llm _).1, (scrape_node_frame firecrawl _).1]
    simpa [create_initial_state] using hex
  have hfin : (extract_rules_node llm (scrape_node firecrawl
      (create_initial_state us product_type exArg))).final_rules = [] := by
    rw [(extract_node_frame llm _).2, (scrape_node_frame firecrawl _).2.2]
    rfl
  have hsc : should_compare (extract_rules_node llm (scrape_node firecrawl
      (create_initial_state us product_type exArg))) = "format" := by
    by_cases ht : truthy (extract_rules_node llm (scrape_node firecrawl
        (create_initial_state us product_type exArg))).error <;>
      simp [should_compare, ht, h2]
  refine ⟨?_, ?_, ?_, ?_, ?_⟩
  · intro herr
    simp [should_compare, truthy, herr, hemp]
  · intro r hr
    simp only [compare_node, hemp, List.isEmpty_nil, if_true] at hr
    simp only [List.mem_map] at hr
    obtain ⟨x, hx, rfl⟩ := hr
    exact ⟨rfl, rfl⟩
  · simp [compare_node_classifier_calls, hemp]
  · simp [run_pipeline_classifier_calls, hsc]
  · intro r hr
    simp only [run_extraction_workflow, run_pipeline, hsc,
      if_neg (by decide : ¬ ("format" = "compare"))] at hr
    by_cases hproc : (extract_rules_node llm (scrape_node firecrawl
        (create_initial_state us product_type exArg))).processed_rules = []
    · have hfmt : format_response_node (extract_rules_node llm
          (scrape_node firecrawl (create_initial_state us product_type exArg)))
          = { extract_rules_node llm (scrape_node firecrawl
                (create_initial_state us product_type exArg)) with
              error := none } := by
        simp [format_response_node, h2, hfin, hproc]
      rw [hfmt] at hr
      simp [truthy, hfin, hproc] at hr
    · have hpe : (extract_rules_node llm (scrape_node firecrawl
          (create_initial_state us product_type exArg))).processed_rules.isEmpty
          = false := by
        simp [List.isEmpty_eq_false, hproc]
      have hfmt : format_response_node (extract_rules_node llm
          (scrape_node firecrawl (create_initial_state us product_type exArg)))
          = { extract_rules_node llm (scrape_node firecrawl
                (create_initial_state us product_type exArg)) with
              final_rules :=
                (extract_rules_node llm (scrape_node firecrawl
                  (create_initial_state us product_type
                    exArg))).processed_rules.map mark_new
              error := none } := by
        simp [format_response_node, h2, hfin, hpe]
      rw [hfmt] at hr
      have hmape : ((extract_rules_node llm (scrape_node firecrawl
          (create_initial_state us product_type
            exArg))).processed_rules.map mark_new).isEmpty = false := by
        simp [List.isEmpty_eq_false, List.map_eq_nil_iff, hproc]
      simp only [truthy, hmape, Bool.false_and, if_neg] at hr
      simp [truthy, hmape] at hr
      obtain ⟨x, hx, rfl⟩ := hr
      exact ⟨rfl, rfl⟩

/-- Witness for the C4 theorem at a concrete empty-prior request. -/
theorem empty_prior_fast_path_witness :
    (st_empty.error = none → should_compare st_empty = "format")
    ∧ compare_node_classifier_calls st_empty = 0
    ∧ run_pipeline_classifier_calls firecrawl_down llm_idle
        (create_initial_state USState.MONTANA "flower" none) = 0 := by
  obtain ⟨h1, _h2, h3, h4, _h5⟩ := empty_prior_fast_path firecrawl_down
    llm_idle classify_idle st_empty rfl USState.MONTANA "flower" none rfl
  exact ⟨h1, h3, h4⟩

/-- Concrete evaluation of the batch contract's partial-failure scenario:
three raw rules, extraction of the second raises, and the batch result is
the rules extracted from the first and third, in that order, with nothing
for the second. -/
theorem batch_partial_failure_example :
    extract_rules_from_scraped_data llm_fail_on_2
        [raw_rule "1", raw_rule "2", raw_rule "3"]
      = [{ rule_name := "rule for text 1"
           rule_description := "desc for text 1"
           rule_text_citation := "cit 1"
           status := ChangeStatus.NEW
           change_reason := none },
         { rule_name := "rule for text 3"
           rule_description := "desc for text 3"
           rule_text_citation := "cit 3"
           status := ChangeStatus.NEW
           change_reason := none }] := by
  decide

/-- Concrete evaluation of the unmatched-citation path: a candidate whose
citation is absent from the prior set is emitted as NEW without any
classifier interaction, even with a classifier whose every call would
raise. -/
theorem unmatched_candidate_example :
    compare_rule_sets classify_idle [prior_a] [cand_b]
      = [{ rule_name := cand_b.rule_name
           rule_description := cand_b.rule_description
           rule_text_citation := cand_b.rule_text_citation
           status := ChangeStatus.NEW
           change_reason := none }] := by
  decide
